import Mathlib

/-!
Shallow embedding of the vulkan-labs triangle renderer
(src/src/main.cpp together with src/src/utils.hpp).

Pure computations (queue-family selection, surface-format selection,
swapchain image count, memory-type search) are translated directly as Lean
functions on the values the Vulkan/GLFW environment reports.  The stateful
frame loop is embedded as a transition function on an explicit `AppState`
together with a trace of the GPU/window-system calls the code issues; the
results the driver returns (image acquisition, presentation) are supplied
by an explicit environment.  32-bit machine arithmetic is modelled on `Nat`
with reduction modulo `2 ^ 32` where the source computes in `uint32_t`.
-/

namespace VulkanLab

/-- The constant `MAX_FRAMES_IN_FLIGHT` of main.cpp. -/
def MAX_FRAMES_IN_FLIGHT : Nat := 2

/-- The modulus of `uint32_t` arithmetic. -/
def U32 : Nat := 2 ^ 32

/-- The struct `Vertex` of utils.hpp: a 2-D position and an RGB colour.
The `float` components hold only exact small decimals here, so they are
modelled as rationals. -/
structure Vertex where
  pos : ℚ × ℚ
  color : ℚ × ℚ × ℚ

/-- The constant vector `VERTICES` of main.cpp (the three commented-out
entries of the source are omitted there as well). -/
def VERTICES : List Vertex :=
  [⟨(0.5, 0.5), (1, 0, 0)⟩,
   ⟨(0, 0), (0, 0, 1)⟩,
   ⟨(0.5, -0.5), (0, 1, 0)⟩,
   ⟨(0, 0), (0, 0, 1)⟩,
   ⟨(-0.5, 0.5), (0, 1, 0)⟩,
   ⟨(-0.5, -0.5), (1, 0, 0)⟩,
   ⟨(-0.08, 0), (0, 0, 0)⟩,
   ⟨(-0.44, 0.34), (0, 0, 0)⟩,
   ⟨(-0.44, -0.34), (0, 0, 0)⟩]

/-- The `vk::Format` values this program distinguishes: the one it searches
for, and everything else (carrying the raw enum code). -/
inductive VkFormat where
  | eB8G8R8A8Srgb
  | otherFormat (code : Nat)
deriving DecidableEq

/-- The `vk::ColorSpaceKHR` values this program distinguishes. -/
inductive VkColorSpace where
  | eSrgbNonlinear
  | otherColorSpace (code : Nat)
deriving DecidableEq

/-- The `vk::PresentModeKHR` values this program distinguishes. -/
inductive VkPresentMode where
  | eMailbox
  | otherMode (code : Nat)
deriving DecidableEq

/-- One element of `getSurfaceFormatsKHR`: a pixel format paired with a
colour space. -/
structure SurfaceFormat where
  format : VkFormat
  colorSpace : VkColorSpace
deriving DecidableEq

/-- The fields of `vk::SurfaceCapabilitiesKHR` that `SurfaceInfo::from`
reads. -/
structure SurfaceCapabilities where
  currentExtent : Nat × Nat
  minImageCount : Nat
  maxImageCount : Nat
deriving DecidableEq

/-- The struct `SurfaceInfo` of utils.hpp. -/
structure SurfaceInfo where
  color_format : VkFormat
  color_space : VkColorSpace
  present_mode : VkPresentMode
  extent : Nat × Nat
  min_image_cnt : Nat
  max_image_cnt : Nat
deriving DecidableEq

/-- The format-selection loop of `SurfaceInfo::from`: starting from
`surface_formats[0]`, scan for the first format equal to
`eB8G8R8A8Srgb`/`eSrgbNonlinear` and break on it.  `none` means the loop
kept the initial element. -/
def selectFormatLoop : List SurfaceFormat → Option SurfaceFormat
  | [] => none
  | f :: rest =>
      if f.format = VkFormat.eB8G8R8A8Srgb ∧
         f.colorSpace = VkColorSpace.eSrgbNonlinear then
        some f
      else
        selectFormatLoop rest

/-- The present-mode-selection loop of `SurfaceInfo::from`: starting from
accumulator `surface_present_modes[0]`, overwrite the accumulator with
every `eMailbox` element encountered (the source loop has no break). -/
def selectModeLoop : VkPresentMode → List VkPresentMode → VkPresentMode
  | acc, [] => acc
  | acc, m :: rest =>
      selectModeLoop (if m = VkPresentMode.eMailbox then m else acc) rest

/-- `SurfaceInfo::from` of utils.hpp.  The source indexes
`surface_formats[0]` and `surface_present_modes[0]` without a guard, which
is undefined on empty vectors; that unguarded precondition is modelled by
returning `none` when either list is empty. -/
def SurfaceInfo.fromDevice? (caps : SurfaceCapabilities)
    (formats : List SurfaceFormat) (modes : List VkPresentMode) :
    Option SurfaceInfo :=
  match formats, modes with
  | f0 :: _, m0 :: _ =>
      let selected_format := (selectFormatLoop formats).getD f0
      let selected_mode := selectModeLoop m0 modes
      some
        { color_format := selected_format.format
          color_space := selected_format.colorSpace
          present_mode := selected_mode
          extent := caps.currentExtent
          min_image_cnt := caps.minImageCount
          max_image_cnt := caps.maxImageCount }
  | _, _ => none

/-- What the program observes about one queue family: the graphics bit of
`queueFlags`, the result of `getSurfaceSupportKHR` for this family index,
and the result of `glfwGetPhysicalDevicePresentationSupport` for it. -/
structure QueueFamily where
  graphics : Bool
  surfaceSupport : Bool
  glfwSupport : Bool
deriving DecidableEq

/-- The struct `QueueFamiliesInfo` of utils.hpp. -/
structure QueueFamiliesInfo where
  graphics_family_idx : Nat
  present_family_idx : Nat
deriving DecidableEq

/-- The scanning loop of `QueueFamiliesInfo::from`: walk the families with
index `i`, overwriting the graphics candidate at every family with the
graphics flag and the present candidate at every family with surface
support. -/
def qfScan : List QueueFamily → Nat → Option Nat → Option Nat →
    Option Nat × Option Nat
  | [], _, g, p => (g, p)
  | f :: rest, i, g, p =>
      qfScan rest (i + 1) (if f.graphics then some i else g)
        (if f.surfaceSupport then some i else p)

/-- `QueueFamiliesInfo::from` of utils.hpp (`from` is a Lean keyword, hence
the name). -/
def QueueFamiliesInfo.fromDevice (families : List QueueFamily) :
    Option QueueFamiliesInfo :=
  match qfScan families 0 none none with
  | (some g, some p) => some ⟨g, p⟩
  | _ => none

/-- The search loop of `findMemoryType` of utils.hpp, over the
`propertyFlags` bitmasks of the device's memory types. -/
def findMemoryTypeLoop (typeFilter properties : Nat) :
    List Nat → Nat → Option Nat
  | [], _ => none
  | flags :: rest, i =>
      if (typeFilter &&& (1 <<< i)) ≠ 0 ∧
         (flags &&& properties) = properties then
        some i
      else
        findMemoryTypeLoop typeFilter properties rest (i + 1)

/-- `findMemoryType` of utils.hpp: the first matching memory type index, or
the thrown `std::runtime_error` message. -/
def findMemoryType (typeFilter properties : Nat) (memoryTypes : List Nat) :
    Except String Nat :=
  match findMemoryTypeLoop typeFilter properties memoryTypes 0 with
  | some i => Except.ok i
  | none => Except.error "failed to find suitable memory type!"

/-- The `img_cnt` computation of `App::createSwapchain` (main.cpp): request
`min_image_cnt + 1` images, clamped by `max_image_cnt` when the latter is
non-zero.  The addition is `uint32_t` addition, hence the modulus. -/
def createSwapchainImgCnt (surface_info : SurfaceInfo) : Nat :=
  let img_cnt := (surface_info.min_image_cnt + 1) % U32
  if surface_info.max_image_cnt ≠ 0 then
    min surface_info.max_image_cnt img_cnt
  else
    img_cnt

/-- The two double-buffered binary semaphores of a frame slot. -/
inductive Sema where
  | imageAvailable (slot : Nat)
  | renderFinished (slot : Nat)
deriving DecidableEq

/-- The observable GPU and window-system calls the program issues, recorded
as a trace.  `fenceWait`/`fenceReset`/`fileWrite` are in the vocabulary so
that their absence from every emitted trace can be stated. -/
inductive Op where
  | pollEvents
  | rebuildSwapchain
  | acquireImage (signalSema : Sema)
  | resetCmdBuf (slot : Nat)
  | beginCmdBuf (slot : Nat)
  | beginRenderPass (framebuffer : Nat)
  | bindPipeline
  | setViewport
  | setScissor
  | bindVertexBuffers
  | draw (vertexCount instanceCount firstVertex firstInstance : Nat)
  | endRenderPass
  | endCmdBuf (slot : Nat)
  | submit (waitSema : Sema) (cmdBuf : Nat) (signalSema : Sema)
  | present (waitSema : Sema) (imageIndex : Nat)
  | queueWaitIdle
  | deviceWaitIdle
  | fenceWait (slot : Nat)
  | fenceReset (slot : Nat)
  | fileRead (path : String)
  | fileWrite (path : String)
deriving DecidableEq

/-- How a fence is created.  `App::createSyncObjects` creates every fence
with `vk::FenceCreateFlagBits::eSignaled`. -/
inductive FenceCreate where
  | signaled
  | unsignaled
deriving DecidableEq

/-- The three per-slot synchronization vectors of `App`. -/
structure SyncObjects where
  vk_fences : List FenceCreate
  vk_image_available_sema : List Sema
  vk_render_finished_sema : List Sema
deriving DecidableEq

/-- `App::createSyncObjects`: clear the three vectors, then for each of the
`MAX_FRAMES_IN_FLIGHT` slots push one signaled fence and one semaphore of
each kind. -/
def createSyncObjects : SyncObjects :=
  { vk_fences := List.replicate MAX_FRAMES_IN_FLIGHT FenceCreate.signaled
    vk_image_available_sema :=
      (List.range MAX_FRAMES_IN_FLIGHT).map Sema.imageAvailable
    vk_render_finished_sema :=
      (List.range MAX_FRAMES_IN_FLIGHT).map Sema.renderFinished }

/-- The `commandBufferCount` passed to `vk::CommandBufferAllocateInfo` in
`App::initDevice`. -/
def commandBufferCount : Nat := MAX_FRAMES_IN_FLIGHT

/-- The mutable scalar state of `App` that the frame loop reads and
writes. -/
structure AppState where
  swapchain_rebuild_needed : Bool
  current_frame : Nat
deriving DecidableEq

/-- The member initializers of `App`: the rebuild flag starts true (so the
first loop iteration builds the swapchain) and the frame index starts
at 0. -/
def initialAppState : AppState :=
  { swapchain_rebuild_needed := true, current_frame := 0 }

/-- The outcome of `acquireNextImage2KHR` that `App::drawFrame`
distinguishes: an image index, or a thrown `vk::OutOfDateKHRError`. -/
inductive AcquireResult where
  | ok (imageIndex : Nat)
  | outOfDate
deriving DecidableEq

/-- The outcome of `presentKHR` that `App::drawFrame` distinguishes. -/
inductive PresentResult where
  | success
  | suboptimalKHR
  | outOfDate
deriving DecidableEq

/-- The driver responses consumed by one `App::drawFrame` call. -/
structure FrameEnv where
  acquire : AcquireResult
  present : PresentResult
deriving DecidableEq

/-- `App::overwriteCommandBuffer`: reset the slot's command buffer and
re-record the fixed command sequence against framebuffer `frame_idx`. -/
def overwriteCommandBuffer (buffer_idx frame_idx : Nat) : List Op :=
  [Op.resetCmdBuf buffer_idx,
   Op.beginCmdBuf buffer_idx,
   Op.beginRenderPass frame_idx,
   Op.bindPipeline,
   Op.setViewport,
   Op.setScissor,
   Op.bindVertexBuffers,
   Op.draw VERTICES.length 1 0 0,
   Op.endRenderPass,
   Op.endCmdBuf buffer_idx]

/-- `App::drawFrame`: acquire an image (an out-of-date signal sets the
rebuild flag and returns early), re-record the slot's command buffer,
submit waiting on the slot's image-available semaphore and signalling its
render-finished semaphore, present waiting on render-finished (a
suboptimal result or out-of-date throw sets the rebuild flag), wait for
the queue to idle, and advance `current_frame` modulo
`MAX_FRAMES_IN_FLIGHT`. -/
def drawFrame (env : FrameEnv) (s : AppState) : AppState × List Op :=
  let cf := s.current_frame
  match env.acquire with
  | AcquireResult.outOfDate =>
      ({ s with swapchain_rebuild_needed := true },
       [Op.acquireImage (Sema.imageAvailable cf)])
  | AcquireResult.ok image_index =>
      let rebuild_flag :=
        match env.present with
        | PresentResult.success => s.swapchain_rebuild_needed
        | PresentResult.suboptimalKHR => true
        | PresentResult.outOfDate => true
      ({ swapchain_rebuild_needed := rebuild_flag,
         current_frame := (cf + 1) % MAX_FRAMES_IN_FLIGHT },
       Op.acquireImage (Sema.imageAvailable cf) ::
         overwriteCommandBuffer cf image_index ++
         [Op.submit (Sema.imageAvailable cf) cf (Sema.renderFinished cf),
          Op.present (Sema.renderFinished cf) image_index,
          Op.queueWaitIdle])

/-- `glfwPollEvents` as the loop calls it: the registered
`framebufferResizeCallback` sets the rebuild flag when a resize event is
delivered during polling. -/
def pollEvents (resizeEvent : Bool) (s : AppState) : AppState × List Op :=
  ({ s with swapchain_rebuild_needed :=
      s.swapchain_rebuild_needed || resizeEvent },
   [Op.pollEvents])

/-- `App::rebuildSwapchain`: tear down and recreate the swapchain objects,
then clear the rebuild flag.  Its internal calls are summarized by the
single `Op.rebuildSwapchain` trace element. -/
def rebuildSwapchain (s : AppState) : AppState × List Op :=
  ({ s with swapchain_rebuild_needed := false },
   [Op.rebuildSwapchain])

/-- The external events consumed by one iteration of `App::runLoop`. -/
structure IterEnv where
  resizeEvent : Bool
  frame : FrameEnv
deriving DecidableEq

/-- One iteration of the `while` loop of `App::runLoop`: poll events, then
rebuild the swapchain exactly when the flag is set, then draw a frame. -/
def loopIter (env : IterEnv) (s : AppState) : AppState × List Op :=
  let p := pollEvents env.resizeEvent s
  let r := if p.1.swapchain_rebuild_needed then rebuildSwapchain p.1
           else (p.1, [])
  let d := drawFrame env.frame r.1
  (d.1, p.2 ++ (r.2 ++ d.2))

/-- `App::runLoop`: iterate until the window closes (the environment list
is the sequence of iterations the window stays open for), then wait for
the device to idle. -/
def runLoop : List IterEnv → AppState → AppState × List Op
  | [], s => (s, [Op.deviceWaitIdle])
  | e :: rest, s =>
      let i := loopIter e s
      let r := runLoop rest i.1
      (r.1, i.2 ++ r.2)

/-- The states of `App` reachable by the event loop: the freshly
initialized state, closed under loop iterations with arbitrary external
events. -/
inductive Reachable : AppState → Prop where
  | init : Reachable initialAppState
  | step (env : IterEnv) {s : AppState} :
      Reachable s → Reachable (loopIter env s).1

/-- The constant `REQUIRED_DEVICE_EXTENSIONS` of main.cpp
(`VK_KHR_SWAPCHAIN_EXTENSION_NAME` expands to this string). -/
def REQUIRED_DEVICE_EXTENSIONS : List String := ["VK_KHR_swapchain"]

/-- The validation layer required in debug builds (`gatherVkLayers`). -/
def VALIDATION_LAYER : String := "VK_LAYER_KHRONOS_validation"

/-- `VK_EXT_DEBUG_UTILS_EXTENSION_NAME`. -/
def DEBUG_UTILS_EXTENSION : String := "VK_EXT_debug_utils"

/-- `vk::MemoryPropertyFlagBits::eHostVisible`. -/
def HOST_VISIBLE_BIT : Nat := 2

/-- `vk::MemoryPropertyFlagBits::eHostCoherent`. -/
def HOST_COHERENT_BIT : Nat := 4

/-- What the program observes about one physical device during
initialization. -/
structure DeviceInfo where
  queueFamilies : List QueueFamily
  extensions : List String
  surfaceFormats : List SurfaceFormat
  presentModes : List VkPresentMode
  capabilities : SurfaceCapabilities
  memoryTypeFlags : List Nat
  vbMemoryTypeBits : Nat
deriving DecidableEq

/-- The responses of GLFW and the Vulkan loader consumed by `App::init`. -/
structure InitEnv where
  vulkanSupported : Bool
  availableLayers : List String
  availableInstanceExtensions : List String
  glfwRequiredExtensions : List String
  surfaceCreationOk : Bool
  devices : List DeviceInfo
deriving DecidableEq

/-- `App::initGlfw`: fails when `glfwVulkanSupported` reports false. -/
def initGlfw (env : InitEnv) : Except String Unit :=
  if env.vulkanSupported then Except.ok ()
  else Except.error "glfw: failed to find vulkan loader"

/-- The `required_layers` vector of `App::gatherVkLayers`, which depends on
whether the build enables validation layers (`NDEBUG`). -/
def requiredLayers (validation : Bool) : List String :=
  if validation then [VALIDATION_LAYER] else []

/-- The recording loop of `App::gatherVkLayers`: each required layer that
is available is appended to `instance_layers`; a missing one throws. -/
def gatherVkLayersLoop (available : List String) :
    List String → List String → Except String (List String)
  | acc, [] => Except.ok acc
  | acc, l :: rest =>
      if l ∈ available then gatherVkLayersLoop available (acc ++ [l]) rest
      else Except.error "vulkan layer(s) required by GLFW missing"

/-- `App::gatherVkLayers`. -/
def gatherVkLayers (validation : Bool) (env : InitEnv) :
    Except String (List String) :=
  gatherVkLayersLoop env.availableLayers [] (requiredLayers validation)

/-- The recording loop of `App::gatherVkExtensions` over the extensions
GLFW requires. -/
def gatherVkExtensionsLoop (available : List String) :
    List String → List String → Except String (List String)
  | acc, [] => Except.ok acc
  | acc, e :: rest =>
      if e ∈ available then
        gatherVkExtensionsLoop available (acc ++ [e]) rest
      else Except.error "vulkan extension(s) required by GLFW missing"

/-- `App::gatherVkExtensions`: record the GLFW-required instance
extensions, then the debug-utils extension when validation is enabled. -/
def gatherVkExtensions (validation : Bool) (env : InitEnv) :
    Except String (List String) := do
  let exts ← gatherVkExtensionsLoop env.availableInstanceExtensions []
      env.glfwRequiredExtensions
  if validation then
    if DEBUG_UTILS_EXTENSION ∈ env.availableInstanceExtensions then
      Except.ok (exts ++ [DEBUG_UTILS_EXTENSION])
    else
      Except.error "vulkan debug utils extension missing"
  else
    Except.ok exts

/-- `App::initSurface`: fails when `glfwCreateWindowSurface` does not
return `VK_SUCCESS`. -/
def initSurface (env : InitEnv) : Except String Unit :=
  if env.surfaceCreationOk then Except.ok ()
  else Except.error "failed to create window surface"

/-- `App::checkDeviceExtensions`. -/
def checkDeviceExtensions (dev : DeviceInfo) : Bool :=
  REQUIRED_DEVICE_EXTENSIONS.all (fun e => dev.extensions.contains e)

/-- `glfwGetPhysicalDevicePresentationSupport` at a queue family index. -/
def glfwPresentationSupport (dev : DeviceInfo) (familyIdx : Nat) : Bool :=
  match dev.queueFamilies.get? familyIdx with
  | some f => f.glfwSupport
  | none => false

/-- The per-device acceptance test of `App::initPhysicalDevice`: the device
is kept when `QueueFamiliesInfo::from` succeeds, the required device
extensions are present, and GLFW confirms presentation support for the
present family. -/
def deviceQualifies (dev : DeviceInfo) : Option QueueFamiliesInfo :=
  match QueueFamiliesInfo.fromDevice dev.queueFamilies with
  | none => none
  | some qi =>
      if checkDeviceExtensions dev ∧
         glfwPresentationSupport dev qi.present_family_idx then
        some qi
      else
        none

/-- The device enumeration loop of `App::initPhysicalDevice`: the first
qualifying device is selected. -/
def pickPhysicalDevice : List DeviceInfo →
    Option (DeviceInfo × QueueFamiliesInfo)
  | [] => none
  | d :: rest =>
      match deviceQualifies d with
      | some qi => some (d, qi)
      | none => pickPhysicalDevice rest

/-- `App::initPhysicalDevice`: select a device or throw, then compute the
`SurfaceInfo` for it (whose unguarded indexing is undefined on empty
format or present-mode lists). -/
def initPhysicalDevice (env : InitEnv) :
    Except String (DeviceInfo × QueueFamiliesInfo × SurfaceInfo) :=
  match pickPhysicalDevice env.devices with
  | none =>
      Except.error "failed to find GPU with graphics and presentation support"
  | some (d, qi) =>
      match SurfaceInfo.fromDevice? d.capabilities d.surfaceFormats
          d.presentModes with
      | some si => Except.ok (d, qi, si)
      | none =>
          Except.error
            "undefined behaviour: empty surface format or present mode list"

/-- The fallible part of `App::initVertexBuffer`: the `findMemoryType`
search for a host-visible, host-coherent memory type for the vertex
buffer. -/
def initVertexBuffer (dev : DeviceInfo) : Except String Nat :=
  findMemoryType dev.vbMemoryTypeBits
    (HOST_VISIBLE_BIT ||| HOST_COHERENT_BIT) dev.memoryTypeFlags

/-- The file reads of `App::createPipeline`: the two fixed shader binary
paths passed to `loadShaderBytes`, in call order. -/
def createPipelineOps : List Op :=
  [Op.fileRead "shaders/vert.spv", Op.fileRead "shaders/lab.spv"]

/-- The results of a successful `App::init`. -/
structure AppInit where
  device : DeviceInfo
  queueFamilies : QueueFamiliesInfo
  surfaceInfo : SurfaceInfo
  sync : SyncObjects
  state : AppState
deriving DecidableEq

/-- `App::init`: the initialization sequence in source order.  Each step's
exception propagates; no step is retried.  `initInstance`, `initWindow`,
`initDevice` and `createRenderPass` have no failure the program
distinguishes and contribute no modelled state beyond what later steps
consume. -/
def initAppE (validation : Bool) (env : InitEnv) : Except String AppInit := do
  initGlfw env
  let _layers ← gatherVkLayers validation env
  let _exts ← gatherVkExtensions validation env
  initSurface env
  let (dev, qi, si) ← initPhysicalDevice env
  let _memTypeIdx ← initVertexBuffer dev
  Except.ok
    { device := dev
      queueFamilies := qi
      surfaceInfo := si
      sync := createSyncObjects
      state := initialAppState }

/-- The trace of `App::init`: file reads happen only in `createPipeline`,
the last step, reached exactly when every earlier step succeeded. -/
def initOps (validation : Bool) (env : InitEnv) : List Op :=
  match initAppE validation env with
  | Except.ok _ => createPipelineOps
  | Except.error _ => []

/-- Process exit status. -/
inductive ExitCode where
  | success
  | failure
deriving DecidableEq

/-- What `main` produces: an exit status, and the error text printed by the
top-level catch when one fires. -/
structure MainResult where
  exit : ExitCode
  errOutput : Option String
deriving DecidableEq

/-- `main` of main.cpp: run `App::init` then `App::runLoop` under a
top-level catch that prints the exception and returns `EXIT_FAILURE`. -/
def mainRun (validation : Bool) (env : InitEnv) (iters : List IterEnv) :
    MainResult :=
  match initAppE validation env with
  | Except.error e => { exit := ExitCode.failure, errOutput := some e }
  | Except.ok ai =>
      let _ := runLoop iters ai.state
      { exit := ExitCode.success, errOutput := none }

/-- The whole program's trace: the initialization trace, then, when
initialization succeeded, the event-loop trace. -/
def mainOps (validation : Bool) (env : InitEnv) (iters : List IterEnv) :
    List Op :=
  match initAppE validation env with
  | Except.error _ => initOps validation env
  | Except.ok ai => initOps validation env ++ (runLoop iters ai.state).2

/-- The file paths read along a trace. -/
def fileReads (t : List Op) : List String :=
  t.filterMap (fun op =>
    match op with
    | Op.fileRead p => some p
    | _ => none)

/-- Whether an operation touches a fence. -/
def isFenceOp : Op → Bool
  | Op.fenceWait _ => true
  | Op.fenceReset _ => true
  | _ => false

/-- GPU-side work accounting for one trace element: a submission enters the
queue asynchronously; `queue.waitIdle` and `device.waitIdle` block until
every submission has completed. -/
def stepInflight (n : Nat) : Op → Nat
  | Op.submit _ _ _ => n + 1
  | Op.queueWaitIdle => 0
  | Op.deviceWaitIdle => 0
  | _ => n

/-- The number of submissions still in flight after executing a trace,
starting from `n` in flight. -/
def inflightCount (t : List Op) (n : Nat) : Nat :=
  t.foldl stepInflight n

/-- Boolean check that along a trace, starting from `n` submissions in
flight, the in-flight count never exceeds one. -/
def checkInflight : List Op → Nat → Bool
  | [], n => Nat.ble n 1
  | op :: rest, n => Nat.ble n 1 && checkInflight rest (stepInflight n op)

/-- A concrete three-iteration environment in which every acquisition and
presentation succeeds: frame slot 0 is used by the first and the third
iteration. -/
def envs3 : List IterEnv :=
  List.replicate 3
    { resizeEvent := false,
      frame := { acquire := AcquireResult.ok 0,
                 present := PresentResult.success } }

/-- A device exposing everything the program requires. -/
def goodDevice : DeviceInfo :=
  { queueFamilies :=
      [{ graphics := true, surfaceSupport := true, glfwSupport := true }]
    extensions := ["VK_KHR_swapchain"]
    surfaceFormats :=
      [{ format := VkFormat.eB8G8R8A8Srgb,
         colorSpace := VkColorSpace.eSrgbNonlinear }]
    presentModes := [VkPresentMode.eMailbox]
    capabilities :=
      { currentExtent := (800, 600), minImageCount := 2, maxImageCount := 8 }
    memoryTypeFlags := [6]
    vbMemoryTypeBits := 1 }

/-- An environment in which every initialization step succeeds. -/
def goodEnv : InitEnv :=
  { vulkanSupported := true
    availableLayers := ["VK_LAYER_KHRONOS_validation"]
    availableInstanceExtensions := ["VK_KHR_surface", "VK_EXT_debug_utils"]
    glfwRequiredExtensions := ["VK_KHR_surface"]
    surfaceCreationOk := true
    devices := [goodDevice] }

/-- An environment in which GLFW reports that no Vulkan loader exists, so
the very first initialization step throws. -/
def noVulkanEnv : InitEnv :=
  { vulkanSupported := false
    availableLayers := []
    availableInstanceExtensions := []
    glfwRequiredExtensions := []
    surfaceCreationOk := false
    devices := [] }

/-- The surface-capability record of a (hypothetical) driver reporting the
largest representable `minImageCount` and no maximum: the `uint32_t`
increment in `createSwapchain` wraps to zero on it. -/
def maxedSurfaceInfo : SurfaceInfo :=
  { color_format := VkFormat.eB8G8R8A8Srgb
    color_space := VkColorSpace.eSrgbNonlinear
    present_mode := VkPresentMode.eMailbox
    extent := (800, 600)
    min_image_cnt := 4294967295
    max_image_cnt := 0 }

/-- The preferred surface format `SurfaceInfo::from` searches for. -/
def srgbPair : SurfaceFormat :=
  { format := VkFormat.eB8G8R8A8Srgb,
    colorSpace := VkColorSpace.eSrgbNonlinear }

lemma surfaceFormat_eq_srgbPair (f : SurfaceFormat) :
    (f.format = VkFormat.eB8G8R8A8Srgb ∧
     f.colorSpace = VkColorSpace.eSrgbNonlinear) ↔ f = srgbPair := by
  cases f
  simp [srgbPair]

lemma selectFormatLoop_eq_some (l : List SurfaceFormat) (f : SurfaceFormat)
    (h : selectFormatLoop l = some f) : f = srgbPair := by
  induction l with
  | nil => simp [selectFormatLoop] at h
  | cons a rest ih =>
      by_cases hc : a.format = VkFormat.eB8G8R8A8Srgb ∧
          a.colorSpace = VkColorSpace.eSrgbNonlinear
      · rw [selectFormatLoop, if_pos hc] at h
        injection h with h2
        rw [← h2]
        exact (surfaceFormat_eq_srgbPair a).mp hc
      · rw [selectFormatLoop, if_neg hc] at h
        exact ih h

lemma selectFormatLoop_isSome_of_mem (l : List SurfaceFormat)
    (h : srgbPair ∈ l) : ∃ f, selectFormatLoop l = some f := by
  induction l with
  | nil => simp at h
  | cons a rest ih =>
      by_cases hc : a.format = VkFormat.eB8G8R8A8Srgb ∧
          a.colorSpace = VkColorSpace.eSrgbNonlinear
      · exact ⟨a, by rw [selectFormatLoop, if_pos hc]⟩
      · have hrest : srgbPair ∈ rest := by
          rcases List.mem_cons.mp h with h1 | h2
          · exact absurd ((surfaceFormat_eq_srgbPair a).mpr h1.symm) hc
          · exact h2
        obtain ⟨f, hf⟩ := ih hrest
        exact ⟨f, by rw [selectFormatLoop, if_neg hc]; exact hf⟩

lemma selectFormatLoop_eq_none_of_not_mem (l : List SurfaceFormat)
    (h : srgbPair ∉ l) : selectFormatLoop l = none := by
  induction l with
  | nil => rfl
  | cons a rest ih =>
      have hc : ¬(a.format = VkFormat.eB8G8R8A8Srgb ∧
          a.colorSpace = VkColorSpace.eSrgbNonlinear) := by
        intro hcc
        exact h (((surfaceFormat_eq_srgbPair a).mp hcc) ▸ List.mem_cons_self a rest)
      rw [selectFormatLoop, if_neg hc]
      exact ih (fun hm => h (List.mem_cons_of_mem _ hm))

lemma selectModeLoop_of_not_mem (acc : VkPresentMode)
    (modes : List VkPresentMode) (h : VkPresentMode.eMailbox ∉ modes) :
    selectModeLoop acc modes = acc := by
  induction modes generalizing acc with
  | nil => rfl
  | cons m rest ih =>
      have hm : ¬ m = VkPresentMode.eMailbox :=
        fun hc => h (hc ▸ List.mem_cons_self m rest)
      rw [selectModeLoop, if_neg hm]
      exact ih acc (fun hmem => h (List.mem_cons_of_mem _ hmem))

lemma selectModeLoop_of_mem (acc : VkPresentMode)
    (modes : List VkPresentMode) (h : VkPresentMode.eMailbox ∈ modes) :
    selectModeLoop acc modes = VkPresentMode.eMailbox := by
  induction modes generalizing acc with
  | nil => simp at h
  | cons m rest ih =>
      by_cases hm : m = VkPresentMode.eMailbox
      · rw [selectModeLoop, if_pos hm]
        by_cases hr : VkPresentMode.eMailbox ∈ rest
        · exact ih m hr
        · rw [selectModeLoop_of_not_mem m rest hr]
          exact hm
      · have hrest : VkPresentMode.eMailbox ∈ rest := by
          rcases List.mem_cons.mp h with h1 | h2
          · exact absurd h1.symm hm
          · exact h2
        rw [selectModeLoop, if_neg hm]
        exact ih acc hrest

/-- The single-purpose scan underlying `qfScan`, for one selector. -/
def scanLastIdx (sel : QueueFamily → Bool) :
    List QueueFamily → Nat → Option Nat → Option Nat
  | [], _, acc => acc
  | f :: rest, i, acc =>
      scanLastIdx sel rest (i + 1) (if sel f then some i else acc)

lemma qfScan_eq_scan (fs : List QueueFamily) (i : Nat) (g p : Option Nat) :
    qfScan fs i g p =
      (scanLastIdx (fun f => f.graphics) fs i g,
       scanLastIdx (fun f => f.surfaceSupport) fs i p) := by
  induction fs generalizing i g p with
  | nil => rfl
  | cons f rest ih =>
      rw [qfScan, scanLastIdx, scanLastIdx]
      exact ih (i + 1) _ _

lemma scanLastIdx_isSome (sel : QueueFamily → Bool) (fs : List QueueFamily)
    (i : Nat) (acc : Option Nat) :
    (scanLastIdx sel fs i acc).isSome = (acc.isSome || fs.any sel) := by
  induction fs generalizing i acc with
  | nil => simp [scanLastIdx]
  | cons f rest ih =>
      rw [scanLastIdx, List.any_cons, ih]
      by_cases h : sel f = true
      · simp [h]
      · simp [h]

lemma scanLastIdx_spec (sel : QueueFamily → Bool) (fs : List QueueFamily)
    (i : Nat) (acc : Option Nat) (j : Nat)
    (h : scanLastIdx sel fs i acc = some j) :
    (acc = some j ∧ ∀ k f, fs.get? k = some f → sel f = false) ∨
    (∃ k f, fs.get? k = some f ∧ sel f = true ∧ j = i + k ∧
       ∀ m f2, k < m → fs.get? m = some f2 → sel f2 = false) := by
  induction fs generalizing i acc with
  | nil =>
      refine Or.inl ⟨h, ?_⟩
      intro k f hk
      simp at hk
  | cons f rest ih =>
      rw [scanLastIdx] at h
      rcases ih (i + 1) _ h with ⟨hacc, hall⟩ | ⟨k, f2, hget, hsel, hj, hafter⟩
      · by_cases hf : sel f = true
        · rw [if_pos hf] at hacc
          injection hacc with hij
          refine Or.inr ⟨0, f, rfl, hf, by omega, ?_⟩
          intro m f2 hm hget
          cases m with
          | zero => omega
          | succ m2 => exact hall m2 f2 (by simpa using hget)
        · rw [if_neg hf] at hacc
          refine Or.inl ⟨hacc, ?_⟩
          intro k f2 hget
          cases k with
          | zero =>
              have hf2 : f2 = f := by
                simp only [List.get?_cons_zero] at hget
                exact (Option.some.injEq _ _ ▸ hget).symm
              rw [Bool.not_eq_true] at hf
              rw [hf2]
              exact hf
          | succ k2 => exact hall k2 f2 (by simpa using hget)
      · refine Or.inr ⟨k + 1, f2, by simpa using hget, hsel, by omega, ?_⟩
        intro m f3 hm hget2
        cases m with
        | zero => omega
        | succ m2 => exact hafter m2 f3 (by omega) (by simpa using hget2)

lemma fromDevice_eq_some (families : List QueueFamily)
    (info : QueueFamiliesInfo)
    (h : QueueFamiliesInfo.fromDevice families = some info) :
    scanLastIdx (fun f => f.graphics) families 0 none =
      some info.graphics_family_idx ∧
    scanLastIdx (fun f => f.surfaceSupport) families 0 none =
      some info.present_family_idx := by
  rw [QueueFamiliesInfo.fromDevice, qfScan_eq_scan] at h
  rcases hg : scanLastIdx (fun f => f.graphics) families 0 none with _ | g <;>
    rcases hp : scanLastIdx (fun f => f.surfaceSupport) families 0 none
      with _ | p <;>
    rw [hg, hp] at h
  · exact Option.noConfusion h
  · exact Option.noConfusion h
  · exact Option.noConfusion h
  · injection h with h2
    subst h2
    exact ⟨rfl, rfl⟩

lemma fromDevice_isSome_iff (families : List QueueFamily) :
    (QueueFamiliesInfo.fromDevice families).isSome ↔
      families.any (fun f => f.graphics) = true ∧
      families.any (fun f => f.surfaceSupport) = true := by
  constructor
  · intro hs
    obtain ⟨info, hinfo⟩ := Option.isSome_iff_exists.mp hs
    obtain ⟨hg, hp⟩ := fromDevice_eq_some families info hinfo
    have h1 := scanLastIdx_isSome (fun f => f.graphics) families 0 none
    have h2 := scanLastIdx_isSome (fun f => f.surfaceSupport) families 0 none
    rw [hg] at h1
    rw [hp] at h2
    simp only [Option.isSome_some, Option.isSome_none, Bool.false_or]
      at h1 h2
    exact ⟨h1.symm, h2.symm⟩
  · rintro ⟨ha, hb⟩
    have h1 := scanLastIdx_isSome (fun f => f.graphics) families 0 none
    have h2 := scanLastIdx_isSome (fun f => f.surfaceSupport) families 0 none
    rw [ha] at h1
    rw [hb] at h2
    simp only [Option.isSome_none, Bool.false_or, Bool.or_true] at h1 h2
    obtain ⟨g, hg⟩ := Option.isSome_iff_exists.mp h1
    obtain ⟨p, hp⟩ := Option.isSome_iff_exists.mp h2
    rw [QueueFamiliesInfo.fromDevice, qfScan_eq_scan, hg, hp]
    rfl

lemma loopIter_trace (env : IterEnv) (s : AppState) :
    (loopIter env s).2 =
      Op.pollEvents ::
        ((if (pollEvents env.resizeEvent s).1.swapchain_rebuild_needed
          then [Op.rebuildSwapchain] else []) ++
         (drawFrame env.frame
            (if (pollEvents env.resizeEvent s).1.swapchain_rebuild_needed
             then (rebuildSwapchain (pollEvents env.resizeEvent s).1).1
             else (pollEvents env.resizeEvent s).1)).2) := by
  by_cases hb : (pollEvents env.resizeEvent s).1.swapchain_rebuild_needed <;>
    (simp only [loopIter, hb]; rfl)

lemma loopIter_fst (env : IterEnv) (s : AppState) :
    (loopIter env s).1 =
      (drawFrame env.frame
        (if (pollEvents env.resizeEvent s).1.swapchain_rebuild_needed
         then (rebuildSwapchain (pollEvents env.resizeEvent s).1).1
         else (pollEvents env.resizeEvent s).1)).1 := by
  by_cases hb : (pollEvents env.resizeEvent s).1.swapchain_rebuild_needed <;>
    simp [loopIter, hb]

lemma drawFrame_current_frame_lt (env : FrameEnv) (s : AppState)
    (h : s.current_frame < 2) : (drawFrame env s).1.current_frame < 2 := by
  rcases env with ⟨acq, prs⟩
  cases acq with
  | outOfDate => simpa [drawFrame] using h
  | ok idx =>
      have h2 : (0 : Nat) < MAX_FRAMES_IN_FLIGHT := by
        norm_num [MAX_FRAMES_IN_FLIGHT]
      have hm := Nat.mod_lt (s.current_frame + 1) h2
      simpa [drawFrame, MAX_FRAMES_IN_FLIGHT] using hm

lemma loopIter_current_frame_lt (env : IterEnv) (s : AppState)
    (h : s.current_frame < 2) : (loopIter env s).1.current_frame < 2 := by
  rw [loopIter_fst]
  by_cases hb : (pollEvents env.resizeEvent s).1.swapchain_rebuild_needed
  · rw [if_pos hb]
    exact drawFrame_current_frame_lt env.frame _ h
  · rw [if_neg hb]
    exact drawFrame_current_frame_lt env.frame _ h

lemma drawFrame_trace_ends (fenv : FrameEnv) (s : AppState) (idx : Nat)
    (h : fenv.acquire = AcquireResult.ok idx) :
    ∃ pre, (drawFrame fenv s).2 = pre ++ [Op.queueWaitIdle] := by
  refine ⟨Op.acquireImage (Sema.imageAvailable s.current_frame) ::
    overwriteCommandBuffer s.current_frame idx ++
    [Op.submit (Sema.imageAvailable s.current_frame) s.current_frame
       (Sema.renderFinished s.current_frame),
     Op.present (Sema.renderFinished s.current_frame) idx], ?_⟩
  simp [drawFrame, h]

lemma drawFrame_no_submit_outOfDate (fenv : FrameEnv) (s : AppState)
    (h : fenv.acquire = AcquireResult.outOfDate) (w : Sema) (c : Nat)
    (g : Sema) : Op.submit w c g ∉ (drawFrame fenv s).2 := by
  simp [drawFrame, h]

lemma inflightCount_append (a b : List Op) (n : Nat) :
    inflightCount (a ++ b) n = inflightCount b (inflightCount a n) := by
  simp [inflightCount, List.foldl_append]

lemma checkInflight_append (a b : List Op) (n : Nat)
    (ha : checkInflight a n = true)
    (hb : checkInflight b (inflightCount a n) = true) :
    checkInflight (a ++ b) n = true := by
  induction a generalizing n with
  | nil => simpa [inflightCount] using hb
  | cons op rest ih =>
      simp only [checkInflight, Bool.and_eq_true] at ha
      simp only [List.cons_append, checkInflight, Bool.and_eq_true]
      refine ⟨ha.1, ih _ ha.2 ?_⟩
      simpa [inflightCount] using hb

lemma checkInflight_sound (t : List Op) (m : Nat)
    (h : checkInflight t m = true) :
    ∀ n, inflightCount (t.take n) m ≤ 1 := by
  induction t generalizing m with
  | nil =>
      intro n
      simp only [checkInflight] at h
      simpa [inflightCount] using Nat.le_of_ble_eq_true h
  | cons op rest ih =>
      intro n
      simp only [checkInflight, Bool.and_eq_true] at h
      cases n with
      | zero => simpa [inflightCount] using Nat.le_of_ble_eq_true h.1
      | succ k =>
          simpa [inflightCount, List.take_succ_cons] using
            ih (stepInflight m op) h.2 k

lemma drawFrame_inflight (fenv : FrameEnv) (s : AppState) :
    checkInflight (drawFrame fenv s).2 0 = true ∧
    inflightCount (drawFrame fenv s).2 0 = 0 := by
  rcases fenv with ⟨acq, prs⟩
  cases acq with
  | ok idx => exact ⟨rfl, rfl⟩
  | outOfDate => exact ⟨rfl, rfl⟩

lemma loopIter_inflight (env : IterEnv) (s : AppState) :
    checkInflight (loopIter env s).2 0 = true ∧
    inflightCount (loopIter env s).2 0 = 0 := by
  by_cases hb : (pollEvents env.resizeEvent s).1.swapchain_rebuild_needed
  · have ht : (loopIter env s).2 =
        [Op.pollEvents, Op.rebuildSwapchain] ++
          (drawFrame env.frame
            (rebuildSwapchain (pollEvents env.resizeEvent s).1).1).2 := by
      simp only [loopIter, hb]
      rfl
    obtain ⟨hc, hi⟩ := drawFrame_inflight env.frame
      (rebuildSwapchain (pollEvents env.resizeEvent s).1).1
    rw [ht]
    constructor
    · exact checkInflight_append _ _ 0 rfl hc
    · rw [inflightCount_append]
      exact hi
  · have ht : (loopIter env s).2 =
        [Op.pollEvents] ++
          (drawFrame env.frame (pollEvents env.resizeEvent s).1).2 := by
      simp only [loopIter, hb]
      rfl
    obtain ⟨hc, hi⟩ := drawFrame_inflight env.frame
      (pollEvents env.resizeEvent s).1
    rw [ht]
    constructor
    · exact checkInflight_append _ _ 0 rfl hc
    · rw [inflightCount_append]
      exact hi

lemma runLoop_inflight (envs : List IterEnv) (s : AppState) :
    checkInflight (runLoop envs s).2 0 = true ∧
    inflightCount (runLoop envs s).2 0 = 0 := by
  induction envs generalizing s with
  | nil => exact ⟨rfl, rfl⟩
  | cons e rest ih =>
      obtain ⟨hc1, hi1⟩ := loopIter_inflight e s
      obtain ⟨hc2, hi2⟩ := ih (loopIter e s).1
      have ht : (runLoop (e :: rest) s).2 =
          (loopIter e s).2 ++ (runLoop rest (loopIter e s).1).2 := rfl
      rw [ht]
      constructor
      · refine checkInflight_append _ _ 0 hc1 ?_
        rw [hi1]
        exact hc2
      · rw [inflightCount_append, hi1]
        exact hi2

lemma drawFrame_fence_free (fenv : FrameEnv) (s : AppState) :
    (drawFrame fenv s).2.filter isFenceOp = [] := by
  rcases fenv with ⟨acq, prs⟩
  cases acq with
  | ok idx => rfl
  | outOfDate => rfl

lemma loopIter_fence_free (env : IterEnv) (s : AppState) :
    (loopIter env s).2.filter isFenceOp = [] := by
  rw [loopIter_trace]
  by_cases hb : (pollEvents env.resizeEvent s).1.swapchain_rebuild_needed <;>
    simp [hb, List.filter_append, isFenceOp, drawFrame_fence_free]

lemma runLoop_fence_free (envs : List IterEnv) (s : AppState) :
    (runLoop envs s).2.filter isFenceOp = [] := by
  induction envs generalizing s with
  | nil => rfl
  | cons e rest ih =>
      have ht : (runLoop (e :: rest) s).2 =
          (loopIter e s).2 ++ (runLoop rest (loopIter e s).1).2 := rfl
      rw [ht, List.filter_append, loopIter_fence_free, ih]
      rfl

lemma drawFrame_file_free (fenv : FrameEnv) (s : AppState) :
    fileReads (drawFrame fenv s).2 = [] := by
  rcases fenv with ⟨acq, prs⟩
  cases acq with
  | ok idx => rfl
  | outOfDate => rfl

lemma loopIter_file_free (env : IterEnv) (s : AppState) :
    fileReads (loopIter env s).2 = [] := by
  rw [loopIter_trace]
  by_cases hb : (pollEvents env.resizeEvent s).1.swapchain_rebuild_needed <;>
    simp [hb, fileReads, List.filterMap_append] <;>
    simpa [fileReads] using drawFrame_file_free env.frame _

lemma runLoop_file_free (envs : List IterEnv) (s : AppState) :
    fileReads (runLoop envs s).2 = [] := by
  induction envs generalizing s with
  | nil => rfl
  | cons e rest ih =>
      have ht : (runLoop (e :: rest) s).2 =
          (loopIter e s).2 ++ (runLoop rest (loopIter e s).1).2 := rfl
      rw [ht]
      rw [show fileReads ((loopIter e s).2 ++
          (runLoop rest (loopIter e s).1).2) =
            fileReads (loopIter e s).2 ++
              fileReads (runLoop rest (loopIter e s).1).2 from
        List.filterMap_append _ _ _]
      rw [loopIter_file_free, ih]
      rfl

lemma drawFrame_no_rebuild (fenv : FrameEnv) (s2 : AppState) :
    Op.rebuildSwapchain ∉ (drawFrame fenv s2).2 := by
  rcases fenv with ⟨acq, prs⟩
  cases acq <;> simp [drawFrame, overwriteCommandBuffer]

/-- C1: every `drawFrame` call proceeds in order: acquire (an out-of-date
signal sets the rebuild flag and skips the rest of the frame, leaving the
frame index untouched); otherwise the slot's command buffer is re-recorded
with the fixed sequence, submitted waiting on the slot's image-available
semaphore and signalling its render-finished semaphore, the image is
presented, and `current_frame` advances modulo 2. -/
theorem drawFrame_frame_order (env : FrameEnv) (s : AppState) :
    (env.acquire = AcquireResult.outOfDate →
      drawFrame env s =
        ({ s with swapchain_rebuild_needed := true },
         [Op.acquireImage (Sema.imageAvailable s.current_frame)]))
  ∧ (∀ idx, env.acquire = AcquireResult.ok idx →
      (drawFrame env s).2 =
        Op.acquireImage (Sema.imageAvailable s.current_frame) ::
          overwriteCommandBuffer s.current_frame idx ++
          [Op.submit (Sema.imageAvailable s.current_frame) s.current_frame
             (Sema.renderFinished s.current_frame),
           Op.present (Sema.renderFinished s.current_frame) idx,
           Op.queueWaitIdle]
      ∧ (drawFrame env s).1.current_frame = (s.current_frame + 1) % 2) := by
  rcases env with ⟨acq, prs⟩
  constructor
  · intro h
    subst h
    rfl
  · intro idx h
    subst h
    exact ⟨rfl, rfl⟩

/-- Witness for C1: a successfully acquired and presented frame advances
the frame index from 0 to 1. -/
theorem drawFrame_frame_order_witness :
    (drawFrame { acquire := AcquireResult.ok 0,
                 present := PresentResult.success } initialAppState
     ).1.current_frame = (initialAppState.current_frame + 1) % 2 :=
  ((drawFrame_frame_order
      { acquire := AcquireResult.ok 0, present := PresentResult.success }
      initialAppState).2 0 rfl).2

/-- C2: `drawFrame` never rebuilds the swapchain inline: its trace contains
no rebuild operation; a suboptimal or out-of-date presentation (and the
resize callback during polling) only set `swapchain_rebuild_needed`, and
`rebuildSwapchain` runs in the loop iteration, after polling and before
the frame's work, exactly when the flag is set. -/
theorem rebuild_deferred (env : IterEnv) (s : AppState) :
    (∀ fenv s2, Op.rebuildSwapchain ∉ (drawFrame fenv s2).2)
  ∧ (∀ idx, env.frame.acquire = AcquireResult.ok idx →
      (env.frame.present = PresentResult.suboptimalKHR ∨
       env.frame.present = PresentResult.outOfDate) →
      (drawFrame env.frame s).1.swapchain_rebuild_needed = true)
  ∧ (∀ s2 : AppState, (pollEvents true s2).1.swapchain_rebuild_needed = true)
  ∧ (Op.rebuildSwapchain ∈ (loopIter env s).2 ↔
      (pollEvents env.resizeEvent s).1.swapchain_rebuild_needed = true)
  ∧ ((loopIter env s).2 =
      Op.pollEvents ::
        ((if (pollEvents env.resizeEvent s).1.swapchain_rebuild_needed
          then [Op.rebuildSwapchain] else []) ++
         (drawFrame env.frame
            (if (pollEvents env.resizeEvent s).1.swapchain_rebuild_needed
             then (rebuildSwapchain (pollEvents env.resizeEvent s).1).1
             else (pollEvents env.resizeEvent s).1)).2)) := by
  refine ⟨drawFrame_no_rebuild, ?_, ?_, ?_, loopIter_trace env s⟩
  · intro idx hacq hp
    rcases hp with h | h <;> simp [drawFrame, hacq, h]
  · intro s2
    simp [pollEvents]
  · rw [loopIter_trace]
    by_cases hb : (pollEvents env.resizeEvent s).1.swapchain_rebuild_needed
    · simp [hb]
    · simp [hb]
      exact drawFrame_no_rebuild env.frame _

/-- Witness for C2: a suboptimal presentation on an otherwise clean frame
leaves the rebuild flag set. -/
theorem rebuild_deferred_witness :
    (drawFrame { acquire := AcquireResult.ok 0,
                 present := PresentResult.suboptimalKHR }
       { swapchain_rebuild_needed := false, current_frame := 0 }
     ).1.swapchain_rebuild_needed = true :=
  ((rebuild_deferred
      { resizeEvent := false,
        frame := { acquire := AcquireResult.ok 0,
                   present := PresentResult.suboptimalKHR } }
      { swapchain_rebuild_needed := false, current_frame := 0 }).2.1)
    0 rfl (Or.inl rfl)

/-- C4: the renderer is a fixed two-frame pipeline: the constant is 2, two
fences and two semaphores of each kind are created, two command buffers
are allocated, and `current_frame < 2` holds in every reachable state of
the frame loop. -/
theorem two_frame_pipeline :
    MAX_FRAMES_IN_FLIGHT = 2
  ∧ createSyncObjects.vk_fences.length = 2
  ∧ createSyncObjects.vk_image_available_sema.length = 2
  ∧ createSyncObjects.vk_render_finished_sema.length = 2
  ∧ commandBufferCount = 2
  ∧ (∀ s, Reachable s → s.current_frame < 2) := by
  refine ⟨rfl, rfl, rfl, rfl, rfl, ?_⟩
  intro s hs
  induction hs with
  | init => exact Nat.zero_lt_two
  | step env hr ih => exact loopIter_current_frame_lt env _ ih

/-- Witness for C4: the initial state is reachable and has frame index
below 2. -/
theorem two_frame_pipeline_witness : initialAppState.current_frame < 2 :=
  two_frame_pipeline.2.2.2.2.2 initialAppState Reachable.init

/-- C5: every loop iteration is: poll events first, then rebuild exactly
when the flag is set, then the frame's GPU work; and whenever that work
submits to the queue, the iteration's trace ends with the blocking
`queue.waitIdle`. -/
theorem event_loop_order (env : IterEnv) (s : AppState) :
    ((loopIter env s).2 =
      Op.pollEvents ::
        ((if (pollEvents env.resizeEvent s).1.swapchain_rebuild_needed
          then [Op.rebuildSwapchain] else []) ++
         (drawFrame env.frame
            (if (pollEvents env.resizeEvent s).1.swapchain_rebuild_needed
             then (rebuildSwapchain (pollEvents env.resizeEvent s).1).1
             else (pollEvents env.resizeEvent s).1)).2))
  ∧ ((∃ w c g, Op.submit w c g ∈ (loopIter env s).2) →
      ∃ pre, (loopIter env s).2 = pre ++ [Op.queueWaitIdle]) := by
  refine ⟨loopIter_trace env s, ?_⟩
  rintro ⟨w, c, g, hmem⟩
  rcases hacq : env.frame.acquire with idx | _
  · obtain ⟨pre, hpre⟩ := drawFrame_trace_ends env.frame
      (if (pollEvents env.resizeEvent s).1.swapchain_rebuild_needed
       then (rebuildSwapchain (pollEvents env.resizeEvent s).1).1
       else (pollEvents env.resizeEvent s).1) idx hacq
    refine ⟨Op.pollEvents ::
      ((if (pollEvents env.resizeEvent s).1.swapchain_rebuild_needed
        then [Op.rebuildSwapchain] else []) ++ pre), ?_⟩
    rw [loopIter_trace, hpre]
    simp
  · have hno : ∀ s2, Op.submit w c g ∉ (drawFrame env.frame s2).2 :=
      fun s2 => drawFrame_no_submit_outOfDate env.frame s2 hacq w c g
    rw [loopIter_trace] at hmem
    by_cases hb : (pollEvents env.resizeEvent s).1.swapchain_rebuild_needed <;>
      simp [hb] at hmem <;>
      exact (hno _ hmem).elim

/-- Witness for C5: a clean frame's iteration both submits and ends with a
queue wait. -/
theorem event_loop_order_witness :
    ∃ pre, (loopIter
      { resizeEvent := false,
        frame := { acquire := AcquireResult.ok 0,
                   present := PresentResult.success } }
      initialAppState).2 = pre ++ [Op.queueWaitIdle] :=
  (event_loop_order
    { resizeEvent := false,
      frame := { acquire := AcquireResult.ok 0,
                 present := PresentResult.success } }
    initialAppState).2
    ⟨Sema.imageAvailable 0, 0, Sema.renderFinished 0, by decide⟩

/-- C3 counterexample: in a concrete three-frame run, frame slot 0's
command buffer is reused (reset and re-recorded at least twice) while the
trace contains no fence wait or reset whatsoever, so the per-frame fences
do not order a slot's previous submission before its resources are
reused. -/
theorem fence_ordering_cex :
    ((runLoop envs3 initialAppState).2.filter isFenceOp = [])
  ∧ 2 ≤ (runLoop envs3 initialAppState).2.count (Op.resetCmdBuf 0) := by
  exact ⟨by decide, by decide⟩

/-- C3 (amended): no two in-flight frames access the same per-slot
resource concurrently — at most one submission is ever in flight along any
run of the event loop — but this is enforced by the unconditional
`queue.waitIdle` ending every submitted frame, not by the per-frame
fences, which are created signaled and never waited on or reset. -/
theorem submissions_serialized :
    (∀ envs n,
      inflightCount ((runLoop envs initialAppState).2.take n) 0 ≤ 1)
  ∧ (∀ envs, (runLoop envs initialAppState).2.filter isFenceOp = [])
  ∧ createSyncObjects.vk_fences =
      List.replicate MAX_FRAMES_IN_FLIGHT FenceCreate.signaled := by
  refine ⟨?_, fun envs => runLoop_fence_free envs initialAppState, rfl⟩
  intro envs n
  exact checkInflight_sound _ 0 (runLoop_inflight envs initialAppState).1 n

/-- C6: every modelled initialization failure (no Vulkan loader, missing
layer or extension, surface creation failure, no qualifying GPU, no
suitable memory type) propagates uncaught to the top-level catch of
`main`, which exits with failure status carrying exactly the thrown
message; `main` fails exactly when initialization threw. -/
theorem init_failures_abort (validation : Bool) (env : InitEnv)
    (iters : List IterEnv) :
    (∀ e, initAppE validation env = Except.error e →
        mainRun validation env iters =
          { exit := ExitCode.failure, errOutput := some e })
  ∧ ((mainRun validation env iters).exit = ExitCode.failure ↔
      ∃ e, initAppE validation env = Except.error e)
  ∧ (pickPhysicalDevice env.devices = none →
      initPhysicalDevice env = Except.error
        "failed to find GPU with graphics and presentation support")
  ∧ (∀ tf props mts, findMemoryTypeLoop tf props mts 0 = none →
      findMemoryType tf props mts = Except.error
        "failed to find suitable memory type!")
  ∧ (env.surfaceCreationOk = false →
      initSurface env = Except.error "failed to create window surface")
  ∧ (∀ avail acc l rest, l ∉ avail →
      gatherVkLayersLoop avail acc (l :: rest) =
        Except.error "vulkan layer(s) required by GLFW missing")
  ∧ (∀ avail acc x rest, x ∉ avail →
      gatherVkExtensionsLoop avail acc (x :: rest) =
        Except.error "vulkan extension(s) required by GLFW missing") := by
  refine ⟨?_, ?_, ?_, ?_, ?_, ?_, ?_⟩
  · intro e he
    simp [mainRun, he]
  · cases h : initAppE validation env with
    | error e =>
        simp [mainRun, h]
    | ok ai =>
        simp only [mainRun, h]
        constructor
        · intro hx
          exact absurd hx (by decide)
        · rintro ⟨e, he⟩
          exact Except.noConfusion he
  · intro hpick
    simp [initPhysicalDevice, hpick]
  · intro tf props mts hnone
    simp [findMemoryType, hnone]
  · intro hsc
    simp [initSurface, hsc]
  · intro avail acc l rest hl
    simp only [gatherVkLayersLoop, if_neg hl]
  · intro avail acc x rest hx
    simp only [gatherVkExtensionsLoop, if_neg hx]

/-- Witness for C6: with no Vulkan loader, `main` exits with failure and
prints the thrown message. -/
theorem init_failures_abort_witness :
    mainRun true noVulkanEnv [] =
      { exit := ExitCode.failure,
        errOutput := some "glfw: failed to find vulkan loader" } :=
  (init_failures_abort true noVulkanEnv []).1
    "glfw: failed to find vulkan loader" rfl

/-- C7: when initialization succeeds, the whole program trace reads
exactly the two fixed shader paths, in order, during startup; no file is
ever read by the event loop or by any frame. -/
theorem shader_reads_startup_only (validation : Bool) (env : InitEnv)
    (iters : List IterEnv) :
    (∀ ai, initAppE validation env = Except.ok ai →
        fileReads (mainOps validation env iters) =
          ["shaders/vert.spv", "shaders/lab.spv"])
  ∧ (∀ s, fileReads (runLoop iters s).2 = [])
  ∧ (∀ fenv s, fileReads (drawFrame fenv s).2 = []) := by
  refine ⟨?_, fun s => runLoop_file_free iters s,
    fun fenv s => drawFrame_file_free fenv s⟩
  intro ai hai
  simp only [mainOps, initOps, hai]
  rw [show fileReads (createPipelineOps ++ (runLoop iters ai.state).2) =
      fileReads createPipelineOps ++ fileReads (runLoop iters ai.state).2
    from List.filterMap_append _ _ _]
  rw [runLoop_file_free]
  rfl

/-- Witness for C7: the successful concrete environment reads exactly the
two shader binaries. -/
theorem shader_reads_startup_only_witness :
    fileReads (mainOps true goodEnv []) =
      ["shaders/vert.spv", "shaders/lab.spv"] :=
  (shader_reads_startup_only true goodEnv []).1 _ rfl

/-- C8: `QueueFamiliesInfo::from` returns a value exactly when some family
has the graphics flag and some family supports the surface, and it then
selects the highest-indexed family of each kind. -/
theorem queue_family_selection (families : List QueueFamily) :
    ((QueueFamiliesInfo.fromDevice families).isSome ↔
      (∃ f ∈ families, f.graphics = true) ∧
      (∃ f ∈ families, f.surfaceSupport = true))
  ∧ (∀ info, QueueFamiliesInfo.fromDevice families = some info →
      ((∃ f, families.get? info.graphics_family_idx = some f ∧
          f.graphics = true)
       ∧ (∀ j f, info.graphics_family_idx < j →
          families.get? j = some f → f.graphics = false)
       ∧ (∃ f, families.get? info.present_family_idx = some f ∧
          f.surfaceSupport = true)
       ∧ (∀ j f, info.present_family_idx < j →
          families.get? j = some f → f.surfaceSupport = false))) := by
  constructor
  · rw [fromDevice_isSome_iff]
    simp [List.any_eq_true]
  · intro info hinfo
    obtain ⟨hg, hp⟩ := fromDevice_eq_some families info hinfo
    refine ⟨?_, ?_, ?_, ?_⟩
    · rcases scanLastIdx_spec _ _ _ _ _ hg with ⟨hacc, _⟩ |
        ⟨k, f, hget, hsel, hj, _⟩
      · exact Option.noConfusion hacc
      · have hk : info.graphics_family_idx = k := by omega
        rw [hk]
        exact ⟨f, hget, hsel⟩
    · intro j f hlt hget
      rcases scanLastIdx_spec _ _ _ _ _ hg with ⟨hacc, _⟩ |
        ⟨k, f2, _, _, hj, hafter⟩
      · exact Option.noConfusion hacc
      · exact hafter j f (by omega) hget
    · rcases scanLastIdx_spec _ _ _ _ _ hp with ⟨hacc, _⟩ |
        ⟨k, f, hget, hsel, hj, _⟩
      · exact Option.noConfusion hacc
      · have hk : info.present_family_idx = k := by omega
        rw [hk]
        exact ⟨f, hget, hsel⟩
    · intro j f hlt hget
      rcases scanLastIdx_spec _ _ _ _ _ hp with ⟨hacc, _⟩ |
        ⟨k, f2, _, _, hj, hafter⟩
      · exact Option.noConfusion hacc
      · exact hafter j f (by omega) hget

/-- Witness for C8: on two families where only the second has graphics and
only the first supports the surface, the selected graphics family is
index 1 and carries the flag. -/
theorem queue_family_selection_witness :
    ∃ f, ([{ graphics := false, surfaceSupport := true, glfwSupport := false },
           { graphics := true, surfaceSupport := false, glfwSupport := false }] :
        List QueueFamily).get? 1 = some f ∧ f.graphics = true :=
  ((queue_family_selection
      [{ graphics := false, surfaceSupport := true, glfwSupport := false },
       { graphics := true, surfaceSupport := false, glfwSupport := false }]).2
    { graphics_family_idx := 1, present_family_idx := 0 } rfl).1

/-- C9: `SurfaceInfo::from` requires non-empty format and present-mode
lists; under that precondition it selects the
`eB8G8R8A8Srgb`/`eSrgbNonlinear` pair when offered and otherwise the first
reported format, and `eMailbox` when offered and otherwise the first
reported mode. -/
theorem surface_info_selection (caps : SurfaceCapabilities)
    (formats : List SurfaceFormat) (modes : List VkPresentMode) :
    ((SurfaceInfo.fromDevice? caps formats modes).isSome ↔
      formats ≠ [] ∧ modes ≠ [])
  ∧ (∀ si, SurfaceInfo.fromDevice? caps formats modes = some si →
      ((srgbPair ∈ formats →
          si.color_format = VkFormat.eB8G8R8A8Srgb ∧
          si.color_space = VkColorSpace.eSrgbNonlinear)
       ∧ (srgbPair ∉ formats →
          formats.head? = some { format := si.color_format,
                                 colorSpace := si.color_space })
       ∧ (VkPresentMode.eMailbox ∈ modes →
          si.present_mode = VkPresentMode.eMailbox)
       ∧ (VkPresentMode.eMailbox ∉ modes →
          modes.head? = some si.present_mode))) := by
  rcases formats with _ | ⟨f0, fs⟩
  · constructor
    · simp [SurfaceInfo.fromDevice?]
    · intro si hsi
      simp [SurfaceInfo.fromDevice?] at hsi
  · rcases modes with _ | ⟨m0, ms⟩
    · constructor
      · simp [SurfaceInfo.fromDevice?]
      · intro si hsi
        simp [SurfaceInfo.fromDevice?] at hsi
    · constructor
      · constructor
        · intro
          exact ⟨List.cons_ne_nil f0 fs, List.cons_ne_nil m0 ms⟩
        · intro
          simp [SurfaceInfo.fromDevice?]
      · intro si hsi
        simp only [SurfaceInfo.fromDevice?] at hsi
        injection hsi with h2
        subst h2
        refine ⟨?_, ?_, ?_, ?_⟩
        · intro hmem
          obtain ⟨f, hf⟩ := selectFormatLoop_isSome_of_mem _ hmem
          have hfp := selectFormatLoop_eq_some _ f hf
          simp [hf, hfp, srgbPair]
        · intro hnmem
          have hnone := selectFormatLoop_eq_none_of_not_mem _ hnmem
          simp only [hnone, Option.getD_none, List.head?_cons]
        · intro hmem
          have := selectModeLoop_of_mem m0 (m0 :: ms) hmem
          simp only [this]
        · intro hnmem
          have := selectModeLoop_of_not_mem m0 (m0 :: ms) hnmem
          simp only [this, List.head?_cons]

/-- Witness for C9: on a single non-preferred format and mode, the first
reported present mode is selected. -/
theorem surface_info_selection_witness :
    (SurfaceInfo.fromDevice?
      { currentExtent := (800, 600), minImageCount := 2, maxImageCount := 8 }
      [srgbPair] [VkPresentMode.eMailbox]).isSome :=
  (surface_info_selection
    { currentExtent := (800, 600), minImageCount := 2, maxImageCount := 8 }
    [srgbPair] [VkPresentMode.eMailbox]).1.mpr
    ⟨by simp, by simp⟩

/-- C10 counterexample: at the representable `uint32_t` input
`min_image_cnt = 4294967295` with unbounded `max_image_cnt = 0`, the
`uint32_t` increment wraps, the requested image count is 0, and it is not
at least `min_image_cnt`, contradicting the claim's universal bound. -/
theorem image_count_cex :
    createSwapchainImgCnt maxedSurfaceInfo = 0
  ∧ ¬ maxedSurfaceInfo.min_image_cnt ≤ createSwapchainImgCnt
      maxedSurfaceInfo := by
  exact ⟨by decide, by decide⟩

/-- C10 (amended): whenever `min_image_cnt + 1` does not overflow 32 bits,
the requested image count is `min_image_cnt + 1` for an unbounded surface
and `min(max_image_cnt, min_image_cnt + 1)` otherwise; consequently it is
at least `min_image_cnt` when the maximum is absent or at least the
minimum, and at most the maximum when one exists. -/
theorem image_count_amended (si : SurfaceInfo)
    (h : si.min_image_cnt + 1 < U32) :
    (si.max_image_cnt = 0 →
      createSwapchainImgCnt si = si.min_image_cnt + 1)
  ∧ (si.max_image_cnt ≠ 0 →
      createSwapchainImgCnt si =
        min si.max_image_cnt (si.min_image_cnt + 1))
  ∧ (si.max_image_cnt = 0 ∨ si.min_image_cnt ≤ si.max_image_cnt →
      si.min_image_cnt ≤ createSwapchainImgCnt si)
  ∧ (si.max_image_cnt ≠ 0 →
      createSwapchainImgCnt si ≤ si.max_image_cnt) := by
  have hmod : (si.min_image_cnt + 1) % U32 = si.min_image_cnt + 1 :=
    Nat.mod_eq_of_lt h
  by_cases hmax : si.max_image_cnt = 0
  · have heq : createSwapchainImgCnt si = si.min_image_cnt + 1 := by
      simp [createSwapchainImgCnt, hmax, hmod]
    exact ⟨fun _ => heq, fun hc => absurd hmax hc,
      fun _ => heq ▸ Nat.le_succ _, fun hc => absurd hmax hc⟩
  · have heq : createSwapchainImgCnt si =
        min si.max_image_cnt (si.min_image_cnt + 1) := by
      simp [createSwapchainImgCnt, hmax, hmod]
    refine ⟨fun hc => absurd hc hmax, fun _ => heq, ?_,
      fun _ => heq ▸ Nat.min_le_left _ _⟩
    intro hor
    rcases hor with h0 | hle
    · exact absurd h0 hmax
    · rw [heq]
      exact Nat.le_min.mpr ⟨hle, Nat.le_succ _⟩

/-- Witness for C10 (amended): a surface reporting minimum 2 and maximum 8
yields a request of min 8 (2 + 1) = 3. -/
theorem image_count_amended_witness :
    createSwapchainImgCnt
      { color_format := VkFormat.eB8G8R8A8Srgb
        color_space := VkColorSpace.eSrgbNonlinear
        present_mode := VkPresentMode.eMailbox
        extent := (800, 600)
        min_image_cnt := 2
        max_image_cnt := 8 } = min 8 (2 + 1) :=
  (image_count_amended
    { color_format := VkFormat.eB8G8R8A8Srgb
      color_space := VkColorSpace.eSrgbNonlinear
      present_mode := VkPresentMode.eMailbox
      extent := (800, 600)
      min_image_cnt := 2
      max_image_cnt := 8 } (by decide)).2.1 (by decide)

end VulkanLab
